import Mathlib

/-!
# Verification of `playlistBuilder.py`

Shallow embedding of the pure computational content of the repository's
single source file `src/playlistBuilder.py`, together with theorems
settling the frozen claims about it.

Modelling conventions:
* Python floats are modelled as exact rationals (`ℚ`).  The code only adds,
  subtracts, squares, divides and compares feature values; the claims are
  about the exact arithmetic the code expresses.
* Python `None`-able attributes become `Option` fields.  Python exceptions
  (`AttributeError`, `TypeError`, `IndexError`, numpy broadcast errors)
  become `none` / `Except.error` results, as noted at each definition.
* Remote HTTP responses are passed to the embedded functions as explicit
  arguments (the parsed JSON payload the code reads from the response).
* `numpy.argsort` guarantees that the returned index list is a permutation
  of `0..n-1` that sorts the value array; with its default
  `kind='quicksort'` the ordering of indices of *equal* values is not
  specified (numpy documents the default kind as not stable, and the actual
  tie order varies with numpy version and hardware dispatch).  `npArgsort`
  below realises the contract with the canonical stable tie resolution;
  every theorem proved about `getBestSeeds` depends only on the
  sortedness/permutation contract, not on the tie order.
* `np.linalg.norm(mat - v, axis=1)` yields Euclidean distances; a strictly
  monotone map (square root) preserves every comparison, so sorting by the
  squared distance `distSq` produces exactly the same order (ties
  included) as sorting by the Euclidean distance.
-/

/-- Python truthiness of an optional string: `None` and `""` are falsy
(`if self.name:` in `genQuery`, `if releaseDate:` in `TrackInfo.__init__`). -/
def pyTruthy (o : Option String) : Bool :=
  match o with
  | none => false
  | some s => s ≠ ""

/-- `TrackInfo` (source lines 12–21): the searchable identity of a track.
All constructor parameters default to `None`.  `year` is stored as the
string the code actually passes (`release_date[:4]`); the code never does
arithmetic with it, only `str(self.year)`. -/
structure TrackInfo where
  name : Option String := none
  artist : Option String := none
  album : Option String := none
  year : Option String := none
  id : Option String := none
  href : Option String := none
deriving Repr, DecidableEq, Inhabited

/-- `TrackInfo.__init__` (lines 13–21): if a truthy `releaseDate` is given,
`year` is overwritten with its last four characters (`releaseDate[-4:]`). -/
def TrackInfo.make (name artist album year id href releaseDate : Option String) :
    TrackInfo :=
  { name := name, artist := artist, album := album,
    year := if pyTruthy releaseDate then some ((releaseDate.getD "").takeRight 4) else year,
    id := id, href := href }

/-- `AudioModel` (lines 48–57): the 8-dimensional feature vector.  Every
field defaults to `None` in Python, hence `Option ℚ`. -/
structure AudioModel where
  acousticness : Option ℚ := none
  danceability : Option ℚ := none
  energy : Option ℚ := none
  instrumentalness : Option ℚ := none
  liveness : Option ℚ := none
  speechiness : Option ℚ := none
  valence : Option ℚ := none
  loudness : Option ℚ := none
deriving Repr, DecidableEq, Inhabited

/-- `AudioModel.getNumpyVector` (lines 59–60): the fixed-order list of the 8
dimensions. -/
def AudioModel.getNumpyVector (m : AudioModel) : List (Option ℚ) :=
  [m.acousticness, m.danceability, m.energy, m.instrumentalness,
   m.liveness, m.speechiness, m.valence, m.loudness]

/-- Collect a list of optional values into an optional list: `none` as soon
as any element is `None`.  Used to model the Python exception raised when a
`None` reaches numpy arithmetic or `str.join`. -/
def seqOpt {a : Type} : List (Option a) -> Option (List a)
  | [] => some []
  | none :: _ => none
  | some x :: xs => (seqOpt xs).map (fun l => x :: l)

/-- The vector of an `AudioModel` as plain rationals; `none` when any of the
8 fields is `None` (in which case numpy builds an object-dtype array on
which the arithmetic of `genAverageModel`/`getBestSeeds` raises). -/
def AudioModel.vecQ (m : AudioModel) : Option (List ℚ) :=
  seqOpt m.getNumpyVector

/-- One record of the `audio_features` JSON response: exactly the keyword
arguments `AudioFeatures.__init__` (lines 33–46) accepts. -/
structure FeatureRecord where
  acousticness : Option ℚ := none
  danceability : Option ℚ := none
  duration_ms : Option ℤ := none
  energy : Option ℚ := none
  instrumentalness : Option ℚ := none
  key : Option ℤ := none
  liveness : Option ℚ := none
  loudness : Option ℚ := none
  mode : Option ℤ := none
  speechiness : Option ℚ := none
  tempo : Option ℚ := none
  time_signature : Option ℤ := none
  valence : Option ℚ := none
  url : Option String := none
  type : Option String := none
  id : Option String := none
  uri : Option String := none
  track_href : Option String := none
  analysis_url : Option String := none
deriving Repr, DecidableEq, Inhabited

/-- `AudioFeatures` (lines 32–46): catalog metadata plus the embedded
`AudioModel` built from the 8 feature dimensions. -/
structure AudioFeatures where
  duration_ms : Option ℤ := none
  key : Option ℤ := none
  mode : Option ℤ := none
  tempo : Option ℚ := none
  time_signature : Option ℤ := none
  url : Option String := none
  type : Option String := none
  id : Option String := none
  uri : Option String := none
  track_href : Option String := none
  analysis_url : Option String := none
  model : AudioModel := {}
deriving Repr, DecidableEq, Inhabited

/-- `AudioFeatures.__init__` (lines 33–46): keeps the metadata and packs the
8 feature dimensions into `self.model = AudioModel(...)`, in the order of
line 46. -/
def AudioFeatures.make (r : FeatureRecord) : AudioFeatures :=
  { duration_ms := r.duration_ms, key := r.key, mode := r.mode,
    tempo := r.tempo, time_signature := r.time_signature, url := r.url,
    type := r.type, id := r.id, uri := r.uri, track_href := r.track_href,
    analysis_url := r.analysis_url,
    model := { acousticness := r.acousticness, danceability := r.danceability,
               energy := r.energy, instrumentalness := r.instrumentalness,
               liveness := r.liveness, speechiness := r.speechiness,
               valence := r.valence, loudness := r.loudness } }

/-- `Track` (lines 62–65): an optional `AudioFeatures` paired with a
`TrackInfo`. -/
structure Track where
  audio_features : Option AudioFeatures := none
  track_info : TrackInfo := {}
deriving Repr, DecidableEq, Inhabited

/-! ## `genQuery` and URL encoding (`urllib.parse.quote`) -/

/-- The UTF-8 bytes of one character (values in `0..255`), as
`str.encode('utf-8')` produces them inside `urllib.parse.quote`. -/
def utf8Bytes (c : Char) : List ℕ :=
  let n := c.toNat
  if n < 0x80 then [n]
  else if n < 0x800 then [0xC0 + n / 0x40, 0x80 + n % 0x40]
  else if n < 0x10000 then
    [0xE0 + n / 0x1000, 0x80 + (n / 0x40) % 0x40, 0x80 + n % 0x40]
  else
    [0xF0 + n / 0x40000, 0x80 + (n / 0x1000) % 0x40,
     0x80 + (n / 0x40) % 0x40, 0x80 + n % 0x40]

/-- A byte `urllib.parse.quote` leaves unencoded with the default
`safe='/'`: ASCII letters, digits, `_`, `.`, `-`, `~`, and `/`. -/
def quoteSafeByte (b : ℕ) : Bool :=
  (0x41 ≤ b && b ≤ 0x5A) || (0x61 ≤ b && b ≤ 0x7A) || (0x30 ≤ b && b ≤ 0x39) ||
  b == 0x5F || b == 0x2E || b == 0x2D || b == 0x7E || b == 0x2F

/-- Uppercase hexadecimal digit, as used by `quote`'s `%XX` escapes. -/
def hexDigitChar (n : ℕ) : Char :=
  if n < 10 then Char.ofNat (0x30 + n) else Char.ofNat (0x41 + (n - 10))

/-- `quote` keeps a safe byte as its character and escapes any other byte
as `%XX` with uppercase hex. -/
def quoteByte (b : ℕ) : List Char :=
  if quoteSafeByte b then [Char.ofNat b]
  else ['%', hexDigitChar (b / 16), hexDigitChar (b % 16)]

/-- `urllib.parse.quote(s)` with the default `safe='/'` (imported at source
line 4, applied at line 30): UTF-8 encode, then percent-encode every unsafe
byte. -/
def pyQuote (s : String) : String :=
  ⟨((s.data.map utf8Bytes).flatten.map quoteByte).flatten⟩

/-- `TrackInfo.genQuery` (lines 23–30): build `field:value` tokens for each
truthy field in the fixed order name, artist, album, year; join the
non-`None` tokens with single spaces; URL-encode the result. -/
def TrackInfo.genQuery (t : TrackInfo) : String :=
  let qName := if pyTruthy t.name then some ("track:" ++ t.name.getD "") else none
  let qArtist := if pyTruthy t.artist then some ("artist:" ++ t.artist.getD "") else none
  let qAlbum := if pyTruthy t.album then some ("album:" ++ t.album.getD "") else none
  let qYear := if pyTruthy t.year then some ("year:" ++ t.year.getD "") else none
  let q := [qName, qArtist, qAlbum, qYear]
  pyQuote (String.intercalate " " (q.filterMap (fun x => x)))

/-! ## `searchTrack` (lines 94–116) -/

/-- One entry of `track["artists"]` in the search response. -/
structure SpotifyArtist where
  name : String
deriving Repr, DecidableEq, Inhabited

/-- The `track["album"]` object of the search response. -/
structure SpotifyAlbum where
  name : String
  release_date : String
deriving Repr, DecidableEq, Inhabited

/-- One element of `response.json()["tracks"]["items"]`. -/
structure SpotifyTrackItem where
  name : String
  artists : List SpotifyArtist
  album : SpotifyAlbum
  id : String
  href : String
deriving Repr, DecidableEq, Inhabited

/-- The parsed `response.json()["tracks"]` payload of the search request. -/
structure SearchResponse where
  items : List SpotifyTrackItem
deriving Repr, DecidableEq, Inhabited

/-- `PlaylistBuilder.searchTrack` (lines 94–116), with the parsed response
payload as an explicit argument.  `Except.error` models a raised Python
exception; `Except.ok none` is the bare `return` at line 105 taken when the
response has zero items; otherwise the result is a fresh `Track` built only
from the first item (`TrackInfo(**data)` at line 115, which passes
`releaseDate=None`, so `year` keeps `release_date[:4]`). -/
def searchTrack (track : Track) (response : SearchResponse) : Except String (Option Track) :=
  let _q := track.track_info.genQuery
  match response.items with
  | [] => Except.ok none
  | item :: _ =>
    match item.artists with
    | [] => Except.error "IndexError: track[artists][0] on an empty artist list"
    | a :: _ =>
      Except.ok (some
        { audio_features := none,
          track_info := TrackInfo.make (some item.name) (some a.name)
            (some item.album.name) (some (item.album.release_date.take 4))
            (some item.id) (some item.href) none })

/-! ## `getAudioFeatures` (lines 118–131) -/

/-- The `for track, feature in zip(tracks, features)` loop of lines 129–130,
rendered functionally: position `i` of the result is track `i` with its
`audio_features` replaced by the `i`-th response record; `zip` stops at the
shorter list, so trailing tracks are returned untouched. -/
def applyFeatures : List Track → List FeatureRecord → List Track
  | [], _ => []
  | ts, [] => ts
  | t :: ts, f :: fs =>
    { t with audio_features := some (AudioFeatures.make f) } :: applyFeatures ts fs

/-- `PlaylistBuilder.getAudioFeatures` (lines 118–131) with the parsed
`audio_features` response records as an explicit argument.  Line 124 runs
`",".join(ids)` over `ids = [track.track_info.id for track in tracks]`,
which raises `TypeError` when any id is `None`; afterwards the zip loop of
lines 129–130 assigns the records positionally and line 131 returns the
track list. -/
def getAudioFeatures (tracks : List Track) (features : List FeatureRecord) :
    Except String (List Track) :=
  match seqOpt (tracks.map (fun t => t.track_info.id)) with
  | none => Except.error "TypeError: sequence item: expected str instance, NoneType found"
  | some _ => Except.ok (applyFeatures tracks features)

/-! ## `genAverageModel` (lines 133–136) -/

/-- `track.audio_features.model.getNumpyVector()` for one track (line 135):
`none` models the `AttributeError` raised when `audio_features` is `None`. -/
def trackVec (t : Track) : Option (List (Option ℚ)) :=
  t.audio_features.map (fun af => af.model.getNumpyVector)

/-- The mean of column `k` of a row-major matrix (`mat.mean(axis=0)` at
line 136: column sum divided by the number of rows). -/
def colMean (qrows : List (List ℚ)) (k : ℕ) : ℚ :=
  ((qrows.map (fun r => r.getD k 0)).sum) / qrows.length

/-- `PlaylistBuilder.genAverageModel` (lines 133–136).
`none` models a raised exception:
* a track without features raises `AttributeError` while the row list of
  line 135 is built;
* with at least one row, a `None` entry anywhere gives `np.matrix` object
  dtype, on which `mean` raises `TypeError`.
For the *empty* track list no exception occurs: `np.matrix([])` has shape
`(1, 0)`, its `mean(axis=0)` is the empty row, `tolist()[0]` is `[]`, and
`AudioModel(*[])` leaves all 8 fields `None`.
Otherwise `mean(axis=0).tolist()[0]` is the list of the 8 column means and
`AudioModel(*...)` assigns them positionally, matching the
`getNumpyVector` order. -/
def genAverageModel (tracks : List Track) : Option AudioModel :=
  match seqOpt (tracks.map trackVec) with
  | none => none
  | some rows =>
    if rows = [] then
      some {}
    else
      match seqOpt (rows.map seqOpt) with
      | none => none
      | some qrows =>
        some { acousticness := some (colMean qrows 0),
               danceability := some (colMean qrows 1),
               energy := some (colMean qrows 2),
               instrumentalness := some (colMean qrows 3),
               liveness := some (colMean qrows 4),
               speechiness := some (colMean qrows 5),
               valence := some (colMean qrows 6),
               loudness := some (colMean qrows 7) }

/-! ## `getBestSeeds` (lines 138–144) -/

/-- The fully-present feature vector of a track: `none` when the track has
no `audio_features` (`AttributeError`) or any of the 8 values is `None`
(object dtype, on which the vector arithmetic of line 143 raises). -/
def fullVec (t : Track) : Option (List ℚ) :=
  t.audio_features.bind (fun af => af.model.vecQ)

/-- Squared Euclidean distance between two equal-length vectors.  Sorting
by it gives exactly the order `np.linalg.norm(mat - v, axis=1)` induces,
since the square root is strictly monotone. -/
def distSq (v w : List ℚ) : ℚ :=
  (List.zipWith (fun a b => (a - b) ^ 2) v w).sum

/-- `dist.argsort()` at line 144: a permutation of `0..n-1` listing the
indices of `dist` in non-decreasing value order.  numpy's default
`kind='quicksort'` leaves the relative order of indices of equal values
unspecified; this embedding fixes the canonical stable resolution, and no
theorem below about tie-insensitive properties depends on that choice. -/
def npArgsort (dist : List ℚ) : List ℕ :=
  List.insertionSort (fun i j => dist.getD i 0 ≤ dist.getD j 0)
    (List.range dist.length)

/-- `PlaylistBuilder.getBestSeeds` (lines 138–144) — note the early-return
short-circuit of lines 140–141 is commented out in the source.  `none`
models a raised exception:
* a missing `audio_features` (line 142, `AttributeError`);
* a `None` among the 8 values of any row or of `model` (line 143 subtracts
  and squares those values, `TypeError` on object dtype);
* an empty track list: `np.matrix([])` has shape `(1, 0)` and broadcasting
  it against the 8-element model vector raises `ValueError`.
Otherwise line 144 returns the tracks at the first `limit` positions of
the distance argsort. -/
def getBestSeeds (tracks : List Track) (model : AudioModel) (limit : ℕ := 5) :
    Option (List Track) :=
  match seqOpt (tracks.map fullVec), model.vecQ with
  | some rows, some target =>
    if rows = [] then
      none
    else
      let dist := rows.map (fun r => distSq r target)
      some (((npArgsort dist).take limit).map (fun i => tracks.getD i default))
  | _, _ => none

/-! ## The deduplicate-and-cap tail of `run` (lines 83–87) -/

/-- Python list slicing `xs[:n]` for an arbitrary integer `n`: a
non-negative `n` keeps the first `min n (length xs)` elements; a negative
`n` drops the last `|n|` (keeping `max (length xs + n) 0`). -/
def pyTake {α : Type} (xs : List α) (n : ℤ) : List α :=
  if 0 ≤ n then xs.take n.toNat else xs.take ((xs.length : ℤ) + n).toNat

/-- Line 83: keep the recommended tracks whose `track_info.id` does not
occur among the enriched input tracks' ids (`not in` compares with `==`;
`None == None` holds, matching equality on `Option String`). -/
def dedupRecommended (tracks recommendedSongs : List Track) : List Track :=
  recommendedSongs.filter
    (fun t => t.track_info.id ∉ tracks.map (fun s => s.track_info.id))

/-- Lines 83–87 of `PlaylistBuilder.run`: deduplicate the recommendation
list against the enriched input tracks, then truncate with `[:limit]` when
its length exceeds the caller-supplied `limit` (a Python `int`, hence `ℤ`).
The enriched track list and the recommendation response are explicit
arguments since they come from remote calls. -/
def runDedupCap (tracks recommendedSongs : List Track) (limit : ℤ) : List Track :=
  let deduped := dedupRecommended tracks recommendedSongs
  if (deduped.length : ℤ) > limit then pyTake deduped limit else deduped

/-! ## Concrete sample data used by witnesses and counterexamples -/

/-- The identity of the spec's query-construction example. -/
def fooBarInfo : TrackInfo := { name := some "Foo", artist := some "Bar" }

/-- An all-zero target vector. -/
def target0 : AudioModel :=
  { acousticness := some 0, danceability := some 0, energy := some 0,
    instrumentalness := some 0, liveness := some 0, speechiness := some 0,
    valence := some 0, loudness := some 0 }

/-- Features whose `acousticness` is `a` and whose other 7 dimensions are 0. -/
def afSample (a : ℚ) : AudioFeatures :=
  { model := { acousticness := some a, danceability := some 0, energy := some 0,
               instrumentalness := some 0, liveness := some 0, speechiness := some 0,
               valence := some 0, loudness := some 0 } }

/-- A track with features `afSample a` and catalog id `i`. -/
def trkSample (a : ℚ) (i : String) : Track :=
  { audio_features := some (afSample a), track_info := { id := some i } }

/-- A feature-less track with catalog id `i`. -/
def idTrack (i : String) : Track := { track_info := { id := some i } }

/-- A one-item search response. -/
def sampleItem : SpotifyTrackItem :=
  { name := "N", artists := [{ name := "A" }],
    album := { name := "Al", release_date := "1970-01-01" }, id := "i", href := "h" }

/-! ## Helper lemmas -/

theorem seqOpt_length {a : Type} : ∀ {l : List (Option a)} {xs : List a},
    seqOpt l = some xs → xs.length = l.length := by
  intro l
  induction l with
  | nil => intro xs h; simp [seqOpt] at h; simp [← h]
  | cons o t ih =>
    intro xs h
    cases o with
    | none => simp [seqOpt] at h
    | some x =>
      simp only [seqOpt, Option.map_eq_some'] at h
      obtain ⟨ys, hys, rfl⟩ := h
      simp [ih hys]

theorem seqOpt_getD {a : Type} [Inhabited a] :
    ∀ {l : List (Option a)} {xs : List a}, seqOpt l = some xs →
      ∀ i, i < l.length → l.getD i none = some (xs.getD i default) := by
  intro l
  induction l with
  | nil => intro xs _ i hi; simp at hi
  | cons o t ih =>
    intro xs h i hi
    cases o with
    | none => simp [seqOpt] at h
    | some x =>
      simp only [seqOpt, Option.map_eq_some'] at h
      obtain ⟨ys, hys, rfl⟩ := h
      cases i with
      | zero => simp
      | succ j =>
        simp only [List.getD_cons_succ]
        exact ih hys j (by simpa using hi)

theorem npArgsort_perm (d : List ℚ) : (npArgsort d).Perm (List.range d.length) :=
  List.perm_insertionSort _ _

theorem npArgsort_length (d : List ℚ) : (npArgsort d).length = d.length := by
  simpa using (npArgsort_perm d).length_eq

theorem npArgsort_mem {d : List ℚ} {i : ℕ} : i ∈ npArgsort d ↔ i < d.length := by
  rw [(npArgsort_perm d).mem_iff, List.mem_range]

theorem npArgsort_nodup (d : List ℚ) : (npArgsort d).Nodup :=
  ((npArgsort_perm d).nodup_iff).mpr (List.nodup_range _)

theorem npArgsort_sorted (d : List ℚ) :
    (npArgsort d).Sorted (fun i j => d.getD i 0 ≤ d.getD j 0) := by
  haveI : IsTotal ℕ (fun i j => d.getD i 0 ≤ d.getD j 0) := ⟨fun a b => le_total _ _⟩
  haveI : IsTrans ℕ (fun i j => d.getD i 0 ≤ d.getD j 0) :=
    ⟨fun a b c hab hbc => le_trans hab hbc⟩
  exact List.sorted_insertionSort _ _

/-! ## Claim C6 — query construction -/

/-- C6: `genQuery` joins the available identity fields as space-separated
`field:value` tokens in the fixed order name, artist, album, year, omitting
fields with no value, and URL-encodes the result; on the identity
`{name:"Foo", artist:"Bar"}` it yields the URL-encoded form of
`"track:Foo artist:Bar"`, namely `"track%3AFoo%20artist%3ABar"`. -/
theorem genQuery_structure_and_example :
    (∀ t : TrackInfo,
      t.genQuery = pyQuote (String.intercalate " "
        (([if pyTruthy t.name then some ("track:" ++ t.name.getD "") else none,
           if pyTruthy t.artist then some ("artist:" ++ t.artist.getD "") else none,
           if pyTruthy t.album then some ("album:" ++ t.album.getD "") else none,
           if pyTruthy t.year then some ("year:" ++ t.year.getD "") else none]).filterMap
          (fun x => x)))) ∧
    fooBarInfo.genQuery = "track%3AFoo%20artist%3ABar" :=
  ⟨fun _ => rfl, by decide⟩

/-! ## Claim C8 — empty identity -/

/-- C8: on an identity with no field set, `genQuery` still produces a query,
the empty string, without raising (`quote("")` is `""`). -/
theorem genQuery_empty_identity :
    ({ name := none, artist := none, album := none, year := none, id := none,
       href := none } : TrackInfo).genQuery = "" := by
  decide

/-! ## Claim C4 — deduplication -/

/-- C4: every track in the deduplicated (and possibly capped) result of
`run` has a catalog id that does not occur among the enriched input
tracks' ids. -/
theorem runDedupCap_no_input_ids (tracks recs : List Track) (limit : ℤ) (t : Track)
    (ht : t ∈ runDedupCap tracks recs limit) :
    t.track_info.id ∉ tracks.map (fun s => s.track_info.id) := by
  have hsub : runDedupCap tracks recs limit ⊆ dedupRecommended tracks recs := by
    unfold runDedupCap
    dsimp only
    split
    · unfold pyTake
      split <;> exact fun x hx => List.take_subset _ _ hx
    · exact fun x hx => hx
  have hmem := hsub ht
  unfold dedupRecommended at hmem
  rw [List.mem_filter] at hmem
  simpa using hmem.2

/-- Witness for C4 at a concrete input: the recommended track `"a"`
duplicates an input id and is removed; the surviving track `"b"` has an id
foreign to the input set. -/
theorem runDedupCap_no_input_ids_witness :
    idTrack "b" ∈ runDedupCap [idTrack "a"] [idTrack "a", idTrack "b"] 5 ∧
    (idTrack "b").track_info.id ∉ [idTrack "a"].map (fun s => s.track_info.id) :=
  ⟨by decide, runDedupCap_no_input_ids [idTrack "a"] [idTrack "a", idTrack "b"] 5
    (idTrack "b") (by decide)⟩

/-! ## Claim C5 — cap -/

/-- C5, corrected: for every *non-negative* caller-supplied limit the final
output length is at most the limit, and no truncation happens when the
deduplicated list does not exceed the limit.  (For negative limits the
claim is false, see the counterexample.) -/
theorem runDedupCap_cap_nonneg (tracks recs : List Track) (limit : ℤ)
    (h : 0 ≤ limit) :
    ((runDedupCap tracks recs limit).length : ℤ) ≤ limit ∧
    (((dedupRecommended tracks recs).length : ℤ) ≤ limit →
      runDedupCap tracks recs limit = dedupRecommended tracks recs) := by
  constructor
  · unfold runDedupCap
    dsimp only
    split
    · unfold pyTake
      rw [if_pos h]
      have hlen : ((dedupRecommended tracks recs).take limit.toNat).length ≤ limit.toNat := by
        simp [List.length_take]
      calc (((dedupRecommended tracks recs).take limit.toNat).length : ℤ)
          ≤ (limit.toNat : ℤ) := by exact_mod_cast hlen
        _ = limit := Int.toNat_of_nonneg h
    · omega
  · intro hlen
    unfold runDedupCap
    dsimp only
    rw [if_neg (by omega)]

/-- Counterexample for C5 as stated: with the caller-supplied limit `-1`
(the claim allows *any* integer), Python's `deduped[:-1]` drops one element
and returns a list of length 1, which exceeds the limit. -/
theorem runDedupCap_negative_limit_counterexample :
    runDedupCap [] [idTrack "a", idTrack "b"] (-1) = [idTrack "a"] ∧
    ¬ (((runDedupCap [] [idTrack "a", idTrack "b"] (-1)).length : ℤ) ≤ -1) := by
  decide

/-- Witness for C5 at a concrete input with limit 1 and 2 surviving
deduplicated tracks. -/
theorem runDedupCap_cap_nonneg_witness :
    (0 : ℤ) ≤ 1 ∧
    (((runDedupCap [idTrack "a"] [idTrack "a", idTrack "b", idTrack "c"] 1).length : ℤ) ≤ 1 ∧
     (((dedupRecommended [idTrack "a"] [idTrack "a", idTrack "b", idTrack "c"]).length : ℤ) ≤ 1 →
       runDedupCap [idTrack "a"] [idTrack "a", idTrack "b", idTrack "c"] 1 =
         dedupRecommended [idTrack "a"] [idTrack "a", idTrack "b", idTrack "c"])) :=
  ⟨by decide, runDedupCap_cap_nonneg [idTrack "a"] [idTrack "a", idTrack "b", idTrack "c"] 1
    (by decide)⟩

/-! ## Claim C9 — positional feature assignment -/

theorem applyFeatures_length :
    ∀ (ts : List Track) (fs : List FeatureRecord),
      (applyFeatures ts fs).length = ts.length := by
  intro ts
  induction ts with
  | nil => intro fs; cases fs <;> rfl
  | cons t ts ih =>
    intro fs
    cases fs with
    | nil => rfl
    | cons f fs => simp [applyFeatures, ih]

theorem applyFeatures_getD (ts : List Track) (fs : List FeatureRecord) (i : ℕ)
    (hi : i < ts.length) :
    ((applyFeatures ts fs).getD i default).track_info = (ts.getD i default).track_info ∧
    (i < fs.length →
      ((applyFeatures ts fs).getD i default).audio_features =
        some (AudioFeatures.make (fs.getD i default))) ∧
    (fs.length ≤ i →
      ((applyFeatures ts fs).getD i default).audio_features =
        (ts.getD i default).audio_features) := by
  induction ts generalizing fs i with
  | nil => simp at hi
  | cons t ts ih =>
    cases fs with
    | nil =>
      refine ⟨rfl, ?_, fun _ => rfl⟩
      intro h
      simp at h
    | cons f fs =>
      cases i with
      | zero => exact ⟨rfl, fun _ => rfl, fun h => by simp at h⟩
      | succ j =>
        have hj : j < ts.length := by simpa using hi
        have := ih fs j hj
        simpa [applyFeatures, List.getD_cons_succ, Nat.succ_lt_succ_iff,
          Nat.succ_le_succ_iff] using this

/-- C9, corrected: provided every input track's catalog id is set (line 124
joins the ids into the request and raises `TypeError` on a `None` id),
`getAudioFeatures` returns the same track list — same length, every track's
`track_info` unchanged — with record `i` assigned as the `audio_features`
of track `i` for every position below the length of the record list, and
tracks beyond that position keeping their previous `audio_features`. -/
theorem getAudioFeatures_positional (tracks : List Track) (features : List FeatureRecord)
    (hids : (seqOpt (tracks.map (fun t => t.track_info.id))).isSome = true) :
    ∃ out, getAudioFeatures tracks features = Except.ok out ∧
      out.length = tracks.length ∧
      (∀ i, i < tracks.length →
        (out.getD i default).track_info = (tracks.getD i default).track_info) ∧
      (∀ i, i < tracks.length → i < features.length →
        (out.getD i default).audio_features =
          some (AudioFeatures.make (features.getD i default))) ∧
      (∀ i, i < tracks.length → features.length ≤ i →
        (out.getD i default).audio_features = (tracks.getD i default).audio_features) := by
  obtain ⟨ids, hids'⟩ := Option.isSome_iff_exists.mp hids
  refine ⟨applyFeatures tracks features, ?_, applyFeatures_length tracks features,
    fun i hi => (applyFeatures_getD tracks features i hi).1,
    fun i hi hif => (applyFeatures_getD tracks features i hi).2.1 hif,
    fun i hi hif => (applyFeatures_getD tracks features i hi).2.2 hif⟩
  unfold getAudioFeatures
  rw [hids']

/-- Counterexample for C9 as stated: on a track whose catalog id is unset
the call raises `TypeError` while joining the request ids, instead of
returning the track list. -/
theorem getAudioFeatures_missing_id_counterexample :
    getAudioFeatures [({} : Track)] [] =
      Except.error "TypeError: sequence item: expected str instance, NoneType found" :=
  rfl

/-- Witness for C9 at a concrete input: two tracks with ids, one feature
record (so the second track keeps its absent features). -/
theorem getAudioFeatures_positional_witness :
    (seqOpt ([idTrack "a", idTrack "b"].map (fun t => t.track_info.id))).isSome = true ∧
    (∃ out, getAudioFeatures [idTrack "a", idTrack "b"] [{ acousticness := some 9 }] =
        Except.ok out ∧
      out.length = [idTrack "a", idTrack "b"].length ∧
      (∀ i, i < [idTrack "a", idTrack "b"].length →
        (out.getD i default).track_info =
          ([idTrack "a", idTrack "b"].getD i default).track_info) ∧
      (∀ i, i < [idTrack "a", idTrack "b"].length →
          i < [({ acousticness := some 9 } : FeatureRecord)].length →
        (out.getD i default).audio_features =
          some (AudioFeatures.make
            ([({ acousticness := some 9 } : FeatureRecord)].getD i default))) ∧
      (∀ i, i < [idTrack "a", idTrack "b"].length →
          [({ acousticness := some 9 } : FeatureRecord)].length ≤ i →
        (out.getD i default).audio_features =
          ([idTrack "a", idTrack "b"].getD i default).audio_features)) :=
  ⟨by decide, getAudioFeatures_positional [idTrack "a", idTrack "b"]
    [{ acousticness := some 9 }] (by decide)⟩

/-! ## Claim C7 — search resolution -/

/-- C7: `searchTrack` returns absent exactly when the response has zero
result items; otherwise (whenever the top item's artist list is non-empty,
`track["artists"][0]` raising on an empty one) it returns a `Track` whose
identity is replaced by the catalog's canonical name, first artist's name,
album name, first 4 characters of the release date as year, id and href,
and which carries no audio features yet. -/
theorem searchTrack_absent_iff (track : Track) (response : SearchResponse) :
    (searchTrack track response = Except.ok none ↔ response.items = []) ∧
    (∀ item rest a arest, response.items = item :: rest → item.artists = a :: arest →
      searchTrack track response = Except.ok (some
        { audio_features := none,
          track_info := { name := some item.name, artist := some a.name,
                          album := some item.album.name,
                          year := some (item.album.release_date.take 4),
                          id := some item.id, href := some item.href } })) := by
  constructor
  · constructor
    · intro h
      cases hit : response.items with
      | nil => rfl
      | cons item rest =>
        cases hart : item.artists with
        | nil => simp [searchTrack, hit, hart] at h
        | cons a arest => simp [searchTrack, hit, hart] at h
    · intro h
      simp [searchTrack, h]
  · intro item rest a arest hit hart
    simp [searchTrack, hit, hart, TrackInfo.make, pyTruthy]

/-- Witness for C7 at a concrete one-item response. -/
theorem searchTrack_absent_iff_witness :
    searchTrack ({} : Track) { items := [sampleItem] } = Except.ok (some
      { audio_features := none,
        track_info := { name := some "N", artist := some "A", album := some "Al",
                        year := some "1970", id := some "i", href := some "h" } }) := by
  have h := (searchTrack_absent_iff ({} : Track) { items := [sampleItem] }).2
    sampleItem [] { name := "A" } [] rfl rfl
  simpa [sampleItem] using h

/-! ## Claim C1 — averaging -/

theorem seqOpt_fullVec_decomp : ∀ tracks : List Track,
    seqOpt (tracks.map fullVec) =
      (seqOpt (tracks.map trackVec)).bind (fun rows => seqOpt (rows.map seqOpt)) := by
  intro tracks
  induction tracks with
  | nil => simp [seqOpt]
  | cons t ts ih =>
    simp only [List.map_cons]
    cases haf : t.audio_features with
    | none => simp [seqOpt, fullVec, trackVec, haf]
    | some af =>
      have hfv : fullVec t = seqOpt af.model.getNumpyVector := by
        simp [fullVec, AudioModel.vecQ, haf]
      have htv : trackVec t = some af.model.getNumpyVector := by
        simp [trackVec, haf]
      rw [hfv, htv]
      cases hv : seqOpt af.model.getNumpyVector with
      | none =>
        cases hrest : seqOpt (ts.map trackVec) with
        | none => simp [seqOpt, hrest]
        | some rows => simp [seqOpt, hv, hrest]
      | some v =>
        cases hrest : seqOpt (ts.map trackVec) with
        | none => simp [seqOpt, hrest, ih]
        | some rows =>
          cases hrows : seqOpt (rows.map seqOpt) with
          | none => simp [seqOpt, hv, hrest, hrows, ih]
          | some qrows => simp [seqOpt, hv, hrest, hrows, ih]

/-- C1, corrected: for every non-empty track list whose tracks all carry a
fully-populated `FeatureVector` (`seqOpt (tracks.map fullVec) = some qrows`,
with `qrows` the list of 8-dimensional rows), `genAverageModel` returns the
`AudioModel` whose dimension `k` is exactly the arithmetic mean of
dimension `k` over the input tracks; for the *empty* list it does not raise
a division-by-zero error but returns `AudioModel()` with all 8 fields
absent. -/
theorem genAverageModel_arithmetic_mean :
    (∀ (tracks : List Track) (qrows : List (List ℚ)),
      seqOpt (tracks.map fullVec) = some qrows → tracks ≠ [] →
      qrows.length = tracks.length ∧
      genAverageModel tracks = some
        { acousticness := some ((qrows.map (fun r => r.getD 0 0)).sum / qrows.length),
          danceability := some ((qrows.map (fun r => r.getD 1 0)).sum / qrows.length),
          energy := some ((qrows.map (fun r => r.getD 2 0)).sum / qrows.length),
          instrumentalness := some ((qrows.map (fun r => r.getD 3 0)).sum / qrows.length),
          liveness := some ((qrows.map (fun r => r.getD 4 0)).sum / qrows.length),
          speechiness := some ((qrows.map (fun r => r.getD 5 0)).sum / qrows.length),
          valence := some ((qrows.map (fun r => r.getD 6 0)).sum / qrows.length),
          loudness := some ((qrows.map (fun r => r.getD 7 0)).sum / qrows.length) }) ∧
    genAverageModel [] = some
      { acousticness := none, danceability := none, energy := none,
        instrumentalness := none, liveness := none, speechiness := none,
        valence := none, loudness := none } := by
  constructor
  · intro tracks qrows hq hne
    have hdecomp := seqOpt_fullVec_decomp tracks
    rw [hq] at hdecomp
    cases hrows : seqOpt (tracks.map trackVec) with
    | none => rw [hrows] at hdecomp; simp at hdecomp
    | some rows =>
      rw [hrows] at hdecomp
      simp only [Option.some_bind] at hdecomp
      have hlenq : qrows.length = tracks.length := by
        simpa using seqOpt_length hq
      have hrowsne : rows ≠ [] := by
        intro h
        have h1 := seqOpt_length hrows
        rw [h] at h1
        simp at h1
        exact hne (List.eq_nil_of_length_eq_zero h1.symm)
      refine ⟨hlenq, ?_⟩
      unfold genAverageModel
      rw [hrows]
      simp only [Option.some_bind]
      rw [if_neg hrowsne, ← hdecomp]
      simp [colMean]
  · rfl

/-- Counterexample for C1 as stated: on the empty list `genAverageModel`
does not fail with a division by zero — `np.matrix([])` has shape `(1, 0)`,
so `mean(axis=0)` divides by the single row count and yields an empty row —
it returns an `AudioModel` with every field unset. -/
theorem genAverageModel_empty_counterexample :
    genAverageModel [] = some
      { acousticness := none, danceability := none, energy := none,
        instrumentalness := none, liveness := none, speechiness := none,
        valence := none, loudness := none } ∧
    genAverageModel [] ≠ none := by
  refine ⟨rfl, ?_⟩
  intro h
  simp [genAverageModel, seqOpt] at h

/-- Witness for C1 at two concrete tracks with acousticness 1 and 2. -/
theorem genAverageModel_arithmetic_mean_witness :
    seqOpt ([trkSample 1 "a", trkSample 2 "b"].map fullVec) =
      some [[1, 0, 0, 0, 0, 0, 0, 0], [2, 0, 0, 0, 0, 0, 0, 0]] ∧
    ([trkSample 1 "a", trkSample 2 "b"] : List Track) ≠ [] ∧
    (([[(1 : ℚ), 0, 0, 0, 0, 0, 0, 0], [2, 0, 0, 0, 0, 0, 0, 0]] :
        List (List ℚ)).length = [trkSample 1 "a", trkSample 2 "b"].length ∧
      genAverageModel [trkSample 1 "a", trkSample 2 "b"] = some
        { acousticness := some ((([[(1 : ℚ), 0, 0, 0, 0, 0, 0, 0],
            [2, 0, 0, 0, 0, 0, 0, 0]].map (fun r => r.getD 0 0)).sum) /
            ([[(1 : ℚ), 0, 0, 0, 0, 0, 0, 0], [2, 0, 0, 0, 0, 0, 0, 0]] :
              List (List ℚ)).length),
          danceability := some ((([[(1 : ℚ), 0, 0, 0, 0, 0, 0, 0],
            [2, 0, 0, 0, 0, 0, 0, 0]].map (fun r => r.getD 1 0)).sum) /
            ([[(1 : ℚ), 0, 0, 0, 0, 0, 0, 0], [2, 0, 0, 0, 0, 0, 0, 0]] :
              List (List ℚ)).length),
          energy := some ((([[(1 : ℚ), 0, 0, 0, 0, 0, 0, 0],
            [2, 0, 0, 0, 0, 0, 0, 0]].map (fun r => r.getD 2 0)).sum) /
            ([[(1 : ℚ), 0, 0, 0, 0, 0, 0, 0], [2, 0, 0, 0, 0, 0, 0, 0]] :
              List (List ℚ)).length),
          instrumentalness := some ((([[(1 : ℚ), 0, 0, 0, 0, 0, 0, 0],
            [2, 0, 0, 0, 0, 0, 0, 0]].map (fun r => r.getD 3 0)).sum) /
            ([[(1 : ℚ), 0, 0, 0, 0, 0, 0, 0], [2, 0, 0, 0, 0, 0, 0, 0]] :
              List (List ℚ)).length),
          liveness := some ((([[(1 : ℚ), 0, 0, 0, 0, 0, 0, 0],
            [2, 0, 0, 0, 0, 0, 0, 0]].map (fun r => r.getD 4 0)).sum) /
            ([[(1 : ℚ), 0, 0, 0, 0, 0, 0, 0], [2, 0, 0, 0, 0, 0, 0, 0]] :
              List (List ℚ)).length),
          speechiness := some ((([[(1 : ℚ), 0, 0, 0, 0, 0, 0, 0],
            [2, 0, 0, 0, 0, 0, 0, 0]].map (fun r => r.getD 5 0)).sum) /
            ([[(1 : ℚ), 0, 0, 0, 0, 0, 0, 0], [2, 0, 0, 0, 0, 0, 0, 0]] :
              List (List ℚ)).length),
          valence := some ((([[(1 : ℚ), 0, 0, 0, 0, 0, 0, 0],
            [2, 0, 0, 0, 0, 0, 0, 0]].map (fun r => r.getD 6 0)).sum) /
            ([[(1 : ℚ), 0, 0, 0, 0, 0, 0, 0], [2, 0, 0, 0, 0, 0, 0, 0]] :
              List (List ℚ)).length),
          loudness := some ((([[(1 : ℚ), 0, 0, 0, 0, 0, 0, 0],
            [2, 0, 0, 0, 0, 0, 0, 0]].map (fun r => r.getD 7 0)).sum) /
            ([[(1 : ℚ), 0, 0, 0, 0, 0, 0, 0], [2, 0, 0, 0, 0, 0, 0, 0]] :
              List (List ℚ)).length) }) :=
  ⟨by decide, by decide,
    genAverageModel_arithmetic_mean.1 [trkSample 1 "a", trkSample 2 "b"]
      [[1, 0, 0, 0, 0, 0, 0, 0], [2, 0, 0, 0, 0, 0, 0, 0]] (by decide) (by decide)⟩

/-! ## Claim C2 — seed selection ordering -/

/-- C2, corrected to non-empty inputs: for every non-empty track list whose
tracks all carry fully-populated `FeatureVector`s and every fully-populated
target vector, `getBestSeeds` returns the tracks at a selection `sel` of
input positions such that the selection has length at most the requested
limit and at most the input length, the selected (squared, hence also
Euclidean) distances to the target are non-decreasing along the output,
and every non-selected input position has distance at least the distance
of every selected position. -/
theorem getBestSeeds_sorted_selection (tracks : List Track) (model : AudioModel)
    (limit : ℕ) (rows : List (List ℚ)) (target : List ℚ)
    (hrows : seqOpt (tracks.map fullVec) = some rows)
    (htgt : model.vecQ = some target) (hne : tracks ≠ []) :
    ∃ sel : List ℕ,
      getBestSeeds tracks model limit =
        some (sel.map (fun i => tracks.getD i default)) ∧
      sel.length ≤ limit ∧ sel.length ≤ tracks.length ∧
      (sel.map (fun i => (rows.map (fun r => distSq r target)).getD i 0)).Sorted (· ≤ ·) ∧
      (∀ i, i < tracks.length → i ∉ sel → ∀ j ∈ sel,
        (rows.map (fun r => distSq r target)).getD j 0 ≤
          (rows.map (fun r => distSq r target)).getD i 0) := by
  have hlen : rows.length = tracks.length := by simpa using seqOpt_length hrows
  have hrne : rows ≠ [] := by
    intro h
    rw [h] at hlen
    exact hne (List.eq_nil_of_length_eq_zero hlen.symm)
  set d := rows.map (fun r => distSq r target) with hd
  have hdlen : d.length = tracks.length := by simp [hd, hlen]
  have hargl : (npArgsort d).length = tracks.length := by
    rw [npArgsort_length, hdlen]
  have hseleq : getBestSeeds tracks model limit =
      some (((npArgsort d).take limit).map (fun i => tracks.getD i default)) := by
    unfold getBestSeeds
    rw [hrows, htgt]
    simp only [if_neg hrne]
  refine ⟨(npArgsort d).take limit, hseleq, ?_, ?_, ?_, ?_⟩
  · rw [List.length_take, hargl]
    exact min_le_left _ _
  · rw [List.length_take, hargl]
    exact min_le_right _ _
  · have hsorted := npArgsort_sorted d
    have htake : ((npArgsort d).take limit).Sorted
        (fun i j => d.getD i 0 ≤ d.getD j 0) :=
      hsorted.sublist (List.take_sublist _ _)
    rw [List.Sorted, List.pairwise_map]
    exact htake
  · intro i hi hnotin j hj
    have hifull : i ∈ npArgsort d := npArgsort_mem.mpr (hdlen ▸ hi)
    have hsplit : i ∈ (npArgsort d).take limit ++ (npArgsort d).drop limit := by
      rw [List.take_append_drop]
      exact hifull
    rcases List.mem_append.mp hsplit with h1 | h2
    · exact absurd h1 hnotin
    · exact (npArgsort_sorted d).rel_of_mem_take_of_mem_drop hj h2

/-- Counterexample for C2 as stated (quantifying over *every* list of
tracks): on the empty list the code raises — `np.matrix([])` has shape
`(1, 0)` and broadcasting it against the 8-dimensional model vector is a
`ValueError` — instead of returning an (empty) selection. -/
theorem getBestSeeds_empty_counterexample :
    getBestSeeds [] target0 5 = none :=
  rfl

/-- Witness for C2 at two concrete tracks and the all-zero target. -/
theorem getBestSeeds_sorted_selection_witness :
    seqOpt ([trkSample 3 "a", trkSample 1 "b"].map fullVec) =
      some [[3, 0, 0, 0, 0, 0, 0, 0], [1, 0, 0, 0, 0, 0, 0, 0]] ∧
    target0.vecQ = some [0, 0, 0, 0, 0, 0, 0, 0] ∧
    ([trkSample 3 "a", trkSample 1 "b"] : List Track) ≠ [] ∧
    (∃ sel : List ℕ,
      getBestSeeds [trkSample 3 "a", trkSample 1 "b"] target0 5 =
        some (sel.map (fun i => [trkSample 3 "a", trkSample 1 "b"].getD i default)) ∧
      sel.length ≤ 5 ∧ sel.length ≤ [trkSample 3 "a", trkSample 1 "b"].length ∧
      (sel.map (fun i =>
        (([[(3 : ℚ), 0, 0, 0, 0, 0, 0, 0], [1, 0, 0, 0, 0, 0, 0, 0]].map
          (fun r => distSq r [0, 0, 0, 0, 0, 0, 0, 0])).getD i 0))).Sorted (· ≤ ·) ∧
      (∀ i, i < [trkSample 3 "a", trkSample 1 "b"].length → i ∉ sel → ∀ j ∈ sel,
        (([[(3 : ℚ), 0, 0, 0, 0, 0, 0, 0], [1, 0, 0, 0, 0, 0, 0, 0]].map
          (fun r => distSq r [0, 0, 0, 0, 0, 0, 0, 0])).getD j 0) ≤
        (([[(3 : ℚ), 0, 0, 0, 0, 0, 0, 0], [1, 0, 0, 0, 0, 0, 0, 0]].map
          (fun r => distSq r [0, 0, 0, 0, 0, 0, 0, 0])).getD i 0))) :=
  ⟨by decide, by decide, by decide,
    getBestSeeds_sorted_selection [trkSample 3 "a", trkSample 1 "b"] target0 5
      [[3, 0, 0, 0, 0, 0, 0, 0], [1, 0, 0, 0, 0, 0, 0, 0]] [0, 0, 0, 0, 0, 0, 0, 0]
      (by decide) (by decide) (by decide)⟩

/-! ## Claim C10 — seed selection shape -/

/-- C10, corrected to non-empty inputs: the selection `getBestSeeds`
returns consists of the tracks at pairwise-distinct input positions (each
position selected at most once, all positions in range), and its length is
exactly `min limit (number of tracks)`. -/
theorem getBestSeeds_distinct_indices (tracks : List Track) (model : AudioModel)
    (limit : ℕ) (rows : List (List ℚ)) (target : List ℚ)
    (hrows : seqOpt (tracks.map fullVec) = some rows)
    (htgt : model.vecQ = some target) (hne : tracks ≠ []) :
    ∃ sel : List ℕ,
      getBestSeeds tracks model limit =
        some (sel.map (fun i => tracks.getD i default)) ∧
      sel.Nodup ∧ (∀ i ∈ sel, i < tracks.length) ∧
      sel.length = min limit tracks.length := by
  have hlen : rows.length = tracks.length := by simpa using seqOpt_length hrows
  have hrne : rows ≠ [] := by
    intro h
    rw [h] at hlen
    exact hne (List.eq_nil_of_length_eq_zero hlen.symm)
  set d := rows.map (fun r => distSq r target) with hd
  have hdlen : d.length = tracks.length := by simp [hd, hlen]
  have hargl : (npArgsort d).length = tracks.length := by
    rw [npArgsort_length, hdlen]
  have hseleq : getBestSeeds tracks model limit =
      some (((npArgsort d).take limit).map (fun i => tracks.getD i default)) := by
    unfold getBestSeeds
    rw [hrows, htgt]
    simp only [if_neg hrne]
  refine ⟨(npArgsort d).take limit, hseleq, ?_, ?_, ?_⟩
  · exact (npArgsort_nodup d).sublist (List.take_sublist _ _)
  · intro i hi
    have : i ∈ npArgsort d := List.mem_of_mem_take hi
    rw [npArgsort_mem, hdlen] at this
    exact this
  · rw [List.length_take, hargl]

/-- Counterexample for C10 as stated: on the empty list (with limit 3 the
claim demands an output of length `min 3 0 = 0`, i.e. `[]`) the code
instead raises a broadcasting `ValueError`. -/
theorem getBestSeeds_empty_min_counterexample :
    getBestSeeds [] target0 3 = none ∧ getBestSeeds [] target0 3 ≠ some [] := by
  exact ⟨rfl, by decide⟩

/-- Witness for C10 at three concrete tracks, limit 2. -/
theorem getBestSeeds_distinct_indices_witness :
    seqOpt ([trkSample 3 "a", trkSample 1 "b", trkSample 2 "c"].map fullVec) =
      some [[3, 0, 0, 0, 0, 0, 0, 0], [1, 0, 0, 0, 0, 0, 0, 0],
            [2, 0, 0, 0, 0, 0, 0, 0]] ∧
    target0.vecQ = some [0, 0, 0, 0, 0, 0, 0, 0] ∧
    ([trkSample 3 "a", trkSample 1 "b", trkSample 2 "c"] : List Track) ≠ [] ∧
    (∃ sel : List ℕ,
      getBestSeeds [trkSample 3 "a", trkSample 1 "b", trkSample 2 "c"] target0 2 =
        some (sel.map (fun i =>
          [trkSample 3 "a", trkSample 1 "b", trkSample 2 "c"].getD i default)) ∧
      sel.Nodup ∧
      (∀ i ∈ sel, i < [trkSample 3 "a", trkSample 1 "b", trkSample 2 "c"].length) ∧
      sel.length = min 2 [trkSample 3 "a", trkSample 1 "b", trkSample 2 "c"].length) :=
  ⟨by decide, by decide, by decide,
    getBestSeeds_distinct_indices [trkSample 3 "a", trkSample 1 "b", trkSample 2 "c"]
      target0 2 [[3, 0, 0, 0, 0, 0, 0, 0], [1, 0, 0, 0, 0, 0, 0, 0],
        [2, 0, 0, 0, 0, 0, 0, 0]] [0, 0, 0, 0, 0, 0, 0, 0]
      (by decide) (by decide) (by decide)⟩
